import Mathlib

/-!
Verification development for the epoch-driven accelerator execution engine
with telemetry multiplexing and the host-facing streaming validation protocol
(files aiValidation_ATON.c and ai_wrapper_ATON.c).

The definitions below are a shallow embedding of the C source: machine
integers become Nat or Int, bitmask tests become Nat.land tests, the
module-level execution context becomes explicit parameters, and the
protocol side effects (acknowledgments, flow-control waits, tensor
streaming) become an explicit event trace.
-/

/- =========================================================================
   Telemetry Counter Multiplexer (_npu_counters_PRE_START, ai_wrapper_ATON.c)
   ========================================================================= -/

/-- Modelled from the spec: the COUNTER_OPT_x option bits come from the header
ai_wrapper_ATON.h, which is not part of the sources; the spec describes them as
independent bits of the per-run telemetry mode bitmask, so they are modelled as
distinct single bits. -/
def COUNTER_OPT_EPOCH_LEN : Nat := 1

/-- Modelled from the spec: per-lane active counters, input lanes only. -/
def COUNTER_OPT_STRG_I_ACTIVE : Nat := 2

/-- Modelled from the spec: per-lane active counters, output lanes only. -/
def COUNTER_OPT_STRG_O_ACTIVE : Nat := 4

/-- Modelled from the spec: per-lane active counters, both directions,
filtered by the unit's own lane masks. -/
def COUNTER_OPT_STRG_ACTIVE : Nat := 8

/-- Modelled from the spec: hold-environment counters for input lanes. -/
def COUNTER_OPT_STRG_HENV : Nat := 16

/-- Modelled from the spec: bus-burst read/write-length counters. -/
def COUNTER_OPT_BUSIF_RW_DATA : Nat := 32

/-- Modelled from the spec: accelerator internal-cache hit/miss counters. -/
def COUNTER_OPT_NPU_CACHE : Nat := 64

/-- Bitmask test `mode & OPT`, as used throughout _npu_counters_PRE_START. -/
def optRequested (mode mask : Nat) : Bool := mode &&& mask != 0

/-- The COUNTER_FMT_OPT flag field of cur_epoch.counter_fmt: which counter
configuration families have been selected.  The C code keeps these as bits of
a uint32 disjoint from the COUNTER_FMT_NUMBER field; each flag becomes one
Bool field. -/
structure CounterFmt where
  epoch_len : Bool := false
  strg_i_active : Bool := false
  strg_o_active : Bool := false
  strg_active : Bool := false
  strg_henv : Bool := false
  busif_rw_data : Bool := false
  npu_cache : Bool := false
deriving DecidableEq, Repr

/-- The configuration-selection part of _npu_counters_PRE_START
(ai_wrapper_ATON.c lines 322-366): starting from counter_fmt = 0, a lone if
for EPOCH_LEN (suppressed when BUSIF_RW_DATA is requested), then the
if / else-if chain over the five mutually exclusive families in source
order (STRG_I_ACTIVE, STRG_O_ACTIVE, STRG_ACTIVE, STRG_HENV,
BUSIF_RW_DATA), then an independent if for NPU_CACHE (compiled only when
USE_COUNTER_NPU_CACHE, here the flag use_npu_cache). -/
def npuCountersPreStartFmt (mode : Nat) (use_npu_cache : Bool) : CounterFmt :=
  let fmt : CounterFmt := {}
  let fmt :=
    if optRequested mode COUNTER_OPT_EPOCH_LEN &&
       !(optRequested mode COUNTER_OPT_BUSIF_RW_DATA) then
      { fmt with epoch_len := true }
    else fmt
  let fmt :=
    if optRequested mode COUNTER_OPT_STRG_I_ACTIVE then
      { fmt with strg_i_active := true, epoch_len := true }
    else if optRequested mode COUNTER_OPT_STRG_O_ACTIVE then
      { fmt with strg_o_active := true, epoch_len := true }
    else if optRequested mode COUNTER_OPT_STRG_ACTIVE then
      { fmt with strg_active := true, epoch_len := true }
    else if optRequested mode COUNTER_OPT_STRG_HENV then
      { fmt with strg_henv := true, epoch_len := true }
    else if optRequested mode COUNTER_OPT_BUSIF_RW_DATA then
      { fmt with busif_rw_data := true }
    else fmt
  let fmt :=
    if use_npu_cache && optRequested mode COUNTER_OPT_NPU_CACHE then
      { fmt with npu_cache := true }
    else fmt
  fmt

/-- Number of the five mutually exclusive counter-configuration families
present in a counter format (cache counters are not a family). -/
def familyCount (fmt : CounterFmt) : Nat :=
  [fmt.strg_i_active, fmt.strg_o_active, fmt.strg_active,
   fmt.strg_henv, fmt.busif_rw_data].count true

/-- C1 counterexample: with both STRG_I_ACTIVE and BUSIF_RW_DATA requested,
the configuration armed at PRE_START is the per-lane input-active family,
not the bus-burst family: the claimed priority is inverted in the code. -/
theorem claim_C1_counterexample :
    (npuCountersPreStartFmt
        (COUNTER_OPT_STRG_I_ACTIVE ||| COUNTER_OPT_BUSIF_RW_DATA) false).busif_rw_data
      = false ∧
    (npuCountersPreStartFmt
        (COUNTER_OPT_STRG_I_ACTIVE ||| COUNTER_OPT_BUSIF_RW_DATA) false).strg_i_active
      = true := by
  decide

/-- C1 (amended): for every telemetry mode bitmask with both the
STRG_I_ACTIVE and the BUSIF_RW_DATA bits set, the configuration selected at
PRE_START is the per-lane input-active family together with epoch-length
counting, and the bus-burst counters are not armed: in the mutually
exclusive selection STRG_I_ACTIVE has the highest priority, bus-burst the
lowest. -/
theorem claim_C1_amended (mode : Nat) (use_npu_cache : Bool)
    (hi : optRequested mode COUNTER_OPT_STRG_I_ACTIVE = true)
    (hb : optRequested mode COUNTER_OPT_BUSIF_RW_DATA = true) :
    (npuCountersPreStartFmt mode use_npu_cache).strg_i_active = true ∧
    (npuCountersPreStartFmt mode use_npu_cache).epoch_len = true ∧
    (npuCountersPreStartFmt mode use_npu_cache).busif_rw_data = false := by
  cases h0 : optRequested mode COUNTER_OPT_EPOCH_LEN <;>
    cases hc : optRequested mode COUNTER_OPT_NPU_CACHE <;>
      cases use_npu_cache <;>
        simp [npuCountersPreStartFmt, h0, hc, hi, hb]

/-- C1 witness: the amended statement instantiated at the concrete mode
requesting exactly STRG_I_ACTIVE and BUSIF_RW_DATA. -/
theorem claim_C1_witness :
    (npuCountersPreStartFmt
        (COUNTER_OPT_STRG_I_ACTIVE ||| COUNTER_OPT_BUSIF_RW_DATA) true).strg_i_active
      = true ∧
    (npuCountersPreStartFmt
        (COUNTER_OPT_STRG_I_ACTIVE ||| COUNTER_OPT_BUSIF_RW_DATA) true).epoch_len
      = true ∧
    (npuCountersPreStartFmt
        (COUNTER_OPT_STRG_I_ACTIVE ||| COUNTER_OPT_BUSIF_RW_DATA) true).busif_rw_data
      = false :=
  claim_C1_amended (COUNTER_OPT_STRG_I_ACTIVE ||| COUNTER_OPT_BUSIF_RW_DATA) true
    (by decide) (by decide)

/-- C7: for every telemetry mode bitmask, the counter format armed at
PRE_START contains at most one of the five mutually exclusive
counter-configuration families (bus-burst, active-in, active-out,
active-both, hold-env); the NPU-cache family is orthogonal and may be armed
in addition. -/
theorem claim_C7_family_exclusive (mode : Nat) (use_npu_cache : Bool) :
    familyCount (npuCountersPreStartFmt mode use_npu_cache) ≤ 1 := by
  cases h0 : optRequested mode COUNTER_OPT_EPOCH_LEN <;>
  cases h1 : optRequested mode COUNTER_OPT_STRG_I_ACTIVE <;>
  cases h2 : optRequested mode COUNTER_OPT_STRG_O_ACTIVE <;>
  cases h3 : optRequested mode COUNTER_OPT_STRG_ACTIVE <;>
  cases h4 : optRequested mode COUNTER_OPT_STRG_HENV <;>
  cases h5 : optRequested mode COUNTER_OPT_BUSIF_RW_DATA <;>
  cases h6 : optRequested mode COUNTER_OPT_NPU_CACHE <;>
  cases use_npu_cache <;>
    simp [npuCountersPreStartFmt, familyCount, h0, h1, h2, h3, h4, h5, h6]

/- =========================================================================
   Instance Manager (ai_wrapper_ATON.c: _get_nn_instance,
   npu_get_instance_by_index, npu_init, npu_run)
   ========================================================================= -/

/-- _get_nn_instance (ai_wrapper_ATON.c lines 90-95): the index check is
one-sided, `if (idx > 1) return NULL;` and otherwise the address of the
single static NN_Instance_Default is returned.  The instance is modelled as
Unit since there is only one. -/
def getNnInstance (idx : Int) : Option Unit :=
  if idx > 1 then none else some ()

/-- npu_get_instance_by_index (ai_wrapper_ATON.c lines 628-644), return code
only: -1 when the output structure pointer is null, -2 when
_get_nn_instance yields no instance, 0 otherwise. -/
def npuGetInstanceByIndex (idx : Int) (instance_nonnull : Bool) : Int :=
  if !instance_nonnull then -1
  else
    match getNnInstance idx with
    | none => -2
    | some _ => 0

/-- C10: instance resolution by positional index accepts every index less
than or equal to 1, including index 1 and negative indices, resolving them
all to the same single default instance; only an index strictly greater
than 1 is reported as not found with return code -2. -/
theorem claim_C10_index_check (idx : Int) :
    (idx ≤ 1 →
      getNnInstance idx = some () ∧ npuGetInstanceByIndex idx true = 0) ∧
    (1 < idx → npuGetInstanceByIndex idx true = -2) := by
  constructor
  · intro h
    have hnot : ¬ idx > 1 := not_lt.mpr h
    simp [getNnInstance, npuGetInstanceByIndex, hnot]
  · intro h
    simp [getNnInstance, npuGetInstanceByIndex, h]

/-- C10 witness: indices -5 and 1 resolve to the default instance with
return code 0; index 2 is rejected with -2. -/
theorem claim_C10_index_check_witness :
    (getNnInstance (-5) = some () ∧ npuGetInstanceByIndex (-5) true = 0) ∧
    (getNnInstance 1 = some () ∧ npuGetInstanceByIndex 1 true = 0) ∧
    npuGetInstanceByIndex 2 true = -2 :=
  ⟨(claim_C10_index_check (-5)).1 (by decide),
   (claim_C10_index_check 1).1 (by decide),
   (claim_C10_index_check 2).2 (by decide)⟩

/-- Effect of npu_init (ai_wrapper_ATON.c lines 667-700) on the instance
lifecycle state: mode 0 tears the instance down (state := 0), mode 1
installs it (state := 1), mode 2 is the soft reset and leaves the state
unchanged. -/
def npuInitState (state mode : Nat) : Nat :=
  if mode = 0 then 0
  else if mode = 1 then 1
  else state

/-- One lifecycle-relevant step performed by npu_run. -/
inductive LifecycleEv where
  | install
  | runLoop
  | teardown
deriving DecidableEq, Repr

/-- Lifecycle behaviour of npu_run (ai_wrapper_ATON.c lines 705-786): when
the instance state is 0 at entry it is installed via npu_init(mode 1) and
should_be_deinit is latched; the epoch-block loop then runs; afterwards,
if should_be_deinit, the instance is torn down via npu_init(mode 0).  The
teardown happens before the return-value check, so it is unconditional on
the loop outcome.  Returns the final state and the ordered step trace. -/
def npuRunLifecycle (state0 : Nat) : Nat × List LifecycleEv :=
  let should_be_deinit := state0 = 0
  let state1 := if state0 = 0 then npuInitState state0 1 else state0
  let evs1 := if state0 = 0 then [LifecycleEv.install] else []
  let evs2 := evs1 ++ [LifecycleEv.runLoop]
  let state2 := if should_be_deinit then npuInitState state1 0 else state1
  let evs3 := evs2 ++ (if should_be_deinit then [LifecycleEv.teardown] else [])
  (state2, evs3)

/-- C8: npu_run on an instance whose lifecycle state is Uninitialized (0)
at call time auto-installs it before the epoch loop and tears it down again
afterwards, so the state after the call equals the state before the call;
an instance that was already Ready (nonzero state) is neither installed nor
torn down and keeps its state. -/
theorem claim_C8_leave_no_trace (state0 : Nat) :
    (npuRunLifecycle state0).1 = state0 ∧
    (npuRunLifecycle state0).2 =
      (if state0 = 0 then
        [LifecycleEv.install, LifecycleEv.runLoop, LifecycleEv.teardown]
       else [LifecycleEv.runLoop]) := by
  by_cases h : state0 = 0 <;> simp [npuRunLifecycle, npuInitState, h]

/- =========================================================================
   Run-wide CPU-cycle reporting (npu_run, ai_wrapper_ATON.c lines 768-783)
   ========================================================================= -/

/-- The run-wide counter totals filled in by npu_run. -/
structure NpuCounters where
  cpu_all : Nat
  cpu_start : Nat
  cpu_core : Nat
  cpu_end : Nat
  extra : Nat
deriving DecidableEq, Repr

/-- The accumulated execution context fields consumed when npu_run fills
the counters. -/
structure NpuExecTotals where
  cpu_cycles_all : Nat
  cpu_cycles_start : Nat
  cpu_cycles_npu : Nat
  cpu_cycles_end : Nat
  npu_cycles_all : Nat
deriving DecidableEq, Repr

/-- The counters block of npu_run (ai_wrapper_ATON.c lines 768-783):
cpu_cycles_all accumulates the three phase totals, then cpu_all is the
fine-grained DWT accumulation when a user callback is registered or the
run took less than 3000 ticks, and the coarser tick-derived estimate
tick * (cpu_freq / 1000) otherwise. -/
def npuRunFillCounters (ctx : NpuExecTotals) (user_cb : Bool)
    (tick cpu_freq : Nat) : NpuCounters :=
  let cpu_cycles_all := ctx.cpu_cycles_all + ctx.cpu_cycles_start +
    ctx.cpu_cycles_npu + ctx.cpu_cycles_end
  { cpu_all :=
      if user_cb || tick < 3000 then cpu_cycles_all
      else tick * (cpu_freq / 1000),
    cpu_start := ctx.cpu_cycles_start,
    cpu_core := ctx.cpu_cycles_npu,
    cpu_end := ctx.cpu_cycles_end,
    extra := ctx.npu_cycles_all }

/-- C9 counterexample: a run with the tick counter sampled at 5000 ticks
(well above the 3000-tick threshold) but with a per-unit callback
registered still reports the fine-grained accumulation, not the
tick-derived estimate, refuting the claim that duration alone decides the
substitution. -/
theorem claim_C9_counterexample :
    (npuRunFillCounters
        { cpu_cycles_all := 42, cpu_cycles_start := 0, cpu_cycles_npu := 0,
          cpu_cycles_end := 0, npu_cycles_all := 0 }
        true 5000 600000000).cpu_all = 42 ∧
    (42 : Nat) ≠ 5000 * (600000000 / 1000) := by
  decide

/-- C9 (amended): the tick-derived total-cycle estimate is substituted for
the fine-grained DWT accumulation exactly when no per-unit user callback is
registered and the sampled tick delta is at least the 3000-tick threshold;
in every other case (callback registered, or shorter run) the fine-grained
accumulation cpu_cycles_all + cpu_cycles_start + cpu_cycles_npu +
cpu_cycles_end is reported. -/
theorem claim_C9_amended (ctx : NpuExecTotals) (user_cb : Bool)
    (tick cpu_freq : Nat) :
    (npuRunFillCounters ctx user_cb tick cpu_freq).cpu_all =
      if user_cb = false ∧ 3000 ≤ tick then tick * (cpu_freq / 1000)
      else ctx.cpu_cycles_all + ctx.cpu_cycles_start +
        ctx.cpu_cycles_npu + ctx.cpu_cycles_end := by
  unfold npuRunFillCounters
  cases user_cb
  · by_cases h : tick < 3000
    · have h2 : ¬ (3000 ≤ tick) := by omega
      simp [h, h2]
    · have h2 : 3000 ≤ tick := by omega
      simp [h, h2]
  · simp

/- =========================================================================
   Tensor Descriptor Model (aiValidation_ATON.c: _is_ll_buffer_valid,
   _find_cdt_ll_buffers; ai_wrapper_ATON.c: get_ll_buffer_size,
   get_ll_element_size)
   ========================================================================= -/

/-- LL_Buffer_InfoTypeDef, restricted to the fields consulted by the
validation path: the shape dimensions (ndims entries of shape[], kept as a
list), the element bit width nbits, the byte size returned by
LL_Buffer_len, and the owning execution-unit index epoch.  A numeric tag
stands in for the name pointer so distinct descriptors stay
distinguishable. -/
structure LLBuffer where
  tag : Nat := 0
  shape : List Nat
  nbits : Nat
  size_bytes : Nat
  epoch : Int
deriving DecidableEq, Repr

/-- get_ll_buffer_size (ai_wrapper_ATON.c lines 77-80): LL_Buffer_len. -/
def getLlBufferSize (b : LLBuffer) : Nat := b.size_bytes

/-- get_ll_element_size (ai_wrapper_ATON.c lines 82-85): nbits / 8. -/
def getLlElementSize (b : LLBuffer) : Nat := b.nbits / 8

/-- _is_ll_buffer_valid (aiValidation_ATON.c lines 187-200): the element
count is the product of the shape dimensions, and the descriptor is valid
when its byte size equals that count times the element byte width.
(The null-pointer guard is dropped: descriptors are values here.) -/
def isLlBufferValid (b : LLBuffer) : Bool :=
  let nb_elem := b.shape.foldl (fun acc d => acc * d) 1
  getLlBufferSize b == nb_elem * getLlElementSize b

/-- _MAX_CDT_LL_BUFFERS (aiValidation_ATON.c line 506). -/
def MAX_CDT_LL_BUFFERS : Nat := 16

/-- _find_cdt_ll_buffers (aiValidation_ATON.c lines 643-682).  Inputs: the
network's internal and output buffer tables, the current epoch number
epoch_num (ctx->cur_epoch_num), the executing block's own epoch_num and
the epoch_num of the next array entry (epoch_block + 1).  An extra epoch
is associated when the block is a real epoch, the current epoch is
positive and the next entry does not continue the sequence; when the next
entry repeats the block's epoch number nothing is collected yet.  Both
buffer tables are scanned in order, keeping epoch-matching descriptors
that pass _is_ll_buffer_valid, up to _MAX_CDT_LL_BUFFERS in total. -/
def findCdtLlBuffers (internals outputs : List LLBuffer) (epoch_num : Int)
    (block_epoch_num next_epoch_num : Int) : List LLBuffer :=
  let extra_epoch_num : Int :=
    if block_epoch_num > 0 ∧ epoch_num > 0 ∧ next_epoch_num ≠ epoch_num + 1
    then epoch_num + 1 else 0
  if block_epoch_num > 0 ∧ next_epoch_num = block_epoch_num then []
  else
    let ints := internals.filter (fun b =>
      (b.epoch == epoch_num || b.epoch == extra_epoch_num) && isLlBufferValid b)
    let outs := outputs.filter (fun b =>
      b.epoch == epoch_num && isLlBufferValid b)
    (ints ++ outs).take MAX_CDT_LL_BUFFERS

/-- C6: every tensor descriptor selected for streaming by
_find_cdt_ll_buffers satisfies byteSize = product of shape dimensions
times element byte width; a descriptor violating this equality is filtered
out before any data transfer is attempted for it. -/
theorem claim_C6_valid_before_streaming
    (internals outputs : List LLBuffer) (epoch_num : Int)
    (block_epoch_num next_epoch_num : Int) (b : LLBuffer)
    (hmem : b ∈ findCdtLlBuffers internals outputs epoch_num
      block_epoch_num next_epoch_num) :
    getLlBufferSize b =
      (b.shape.foldl (fun acc d => acc * d) 1) * getLlElementSize b := by
  have hvalid : isLlBufferValid b = true := by
    simp only [findCdtLlBuffers] at hmem
    by_cases hC : block_epoch_num > 0 ∧ next_epoch_num = block_epoch_num
    · rw [if_pos hC] at hmem
      simp at hmem
    · rw [if_neg hC] at hmem
      have hsub := List.take_subset MAX_CDT_LL_BUFFERS _ hmem
      rcases List.mem_append.mp hsub with hin | hout
      · have h2 := (List.mem_filter.mp hin).2
        simp at h2
        exact h2.2
      · have h2 := (List.mem_filter.mp hout).2
        simp at h2
        exact h2.2
  simpa [isLlBufferValid] using hvalid

/-- C6 witness: a concrete valid 584-byte float32 descriptor of shape
1 x 146 owned by epoch 0 is collected for streaming and satisfies the size
equation. -/
theorem claim_C6_valid_before_streaming_witness :
    { shape := [1, 146], nbits := 32, size_bytes := 584, epoch := 0 : LLBuffer } ∈
      findCdtLlBuffers
        [{ shape := [1, 146], nbits := 32, size_bytes := 584, epoch := 0 }]
        [] 0 0 1 ∧
    getLlBufferSize
        { shape := [1, 146], nbits := 32, size_bytes := 584, epoch := 0 } =
      (([1, 146] : List Nat).foldl (fun acc d => acc * d) 1) *
        getLlElementSize
          { shape := [1, 146], nbits := 32, size_bytes := 584, epoch := 0 } :=
  ⟨by decide,
   claim_C6_valid_before_streaming
     [{ shape := [1, 146], nbits := 32, size_bytes := 584, epoch := 0 }]
     [] 0 0 1 _ (by decide)⟩

/- =========================================================================
   Input-tensor upload memory effect (receive_ai_io_tensor,
   aiValidation_ATON.c lines 410-454)
   ========================================================================= -/

/-- memcpy(dst, src, src.length) on a byte-list memory: the src bytes
overwrite the region starting at offset dst. -/
def memcpyAt (mem : List Nat) (dst : Nat) (src : List Nat) : List Nat :=
  mem.take dst ++ src ++ mem.drop (dst + src.length)

/-- n consecutive copies of one element chunk. -/
def repeatChunk (n : Nat) (chunk : List Nat) : List Nat :=
  match n with
  | 0 => []
  | m + 1 => chunk ++ repeatChunk m chunk

/-- The broadcast loop of receive_ai_io_tensor (lines 435-445):
`for (pos = 1; pos < size / el_s; pos++) memcpy(w_ptr, r_ptr, el_s)` with
r_ptr the buffer start and w_ptr advancing one element per iteration.  The
argument is the loop bound size / el_s; bounds 0 and 1 perform no copy. -/
def broadcastLoop (mem : List Nat) (el_s : Nat) : Nat → List Nat
  | 0 => mem
  | 1 => mem
  | n + 2 =>
    let prev := broadcastLoop mem el_s (n + 1)
    memcpyAt prev ((n + 1) * el_s) (prev.take el_s)

/-- The size aiPbMgrReceiveData is asked for (lines 414-422): the whole
declared buffer size, or a single element byte width when the
single-value-broadcast flag is set. -/
def receiveDataSize (b : LLBuffer) (simple : Bool) : Nat :=
  if simple then getLlElementSize b else getLlBufferSize b

/-- Memory effect of a successful receive_ai_io_tensor: the received bytes
land at the buffer start, then with the single-value flag the broadcast
loop replicates the first element across the buffer. -/
def receiveTensorMemory (init received : List Nat) (el_s buf_size : Nat)
    (simple : Bool) : List Nat :=
  let written := memcpyAt init 0 received
  if simple then broadcastLoop written el_s (buf_size / el_s) else written

/-- The el_s bytes of element number k in a byte-list memory. -/
def chunkAt (mem : List Nat) (el_s k : Nat) : List Nat :=
  (mem.drop (k * el_s)).take el_s

theorem repeatChunk_length (n : Nat) (c : List Nat) :
    (repeatChunk n c).length = n * c.length := by
  induction n with
  | zero => simp [repeatChunk]
  | succ m ih => simp [repeatChunk, ih, Nat.succ_mul]; omega

theorem repeatChunk_succ_right (n : Nat) (c : List Nat) :
    repeatChunk (n + 1) c = repeatChunk n c ++ c := by
  induction n with
  | zero => simp [repeatChunk]
  | succ m ih =>
    calc repeatChunk (m + 2) c = c ++ repeatChunk (m + 1) c := rfl
    _ = c ++ (repeatChunk m c ++ c) := by rw [ih]
    _ = repeatChunk (m + 1) c ++ c := by simp [repeatChunk]

/-- Closed form of the broadcast loop: with loop bound n and enough memory,
the first n element slots all hold the initial first element and the tail
is untouched. -/
theorem broadcastLoop_closed (mem : List Nat) (el_s n : Nat)
    (hn : 1 ≤ n) (hlen : n * el_s ≤ mem.length) :
    broadcastLoop mem el_s n =
      repeatChunk n (mem.take el_s) ++ mem.drop (n * el_s) := by
  induction n with
  | zero => omega
  | succ m ih =>
    cases m with
    | zero =>
      simp [broadcastLoop, repeatChunk]
    | succ p =>
      have hmul1 : 1 * el_s ≤ (p + 1 + 1) * el_s :=
        Nat.mul_le_mul_right el_s (by omega)
      have hmulp : (p + 1) * el_s ≤ (p + 1 + 1) * el_s :=
        Nat.mul_le_mul_right el_s (by omega)
      have hel_le : el_s ≤ mem.length := by omega
      have hprevlen : (p + 1) * el_s ≤ mem.length := by omega
      have hprev := ih (by omega) hprevlen
      have htake_len : (mem.take el_s).length = el_s := by
        rw [List.length_take]
        omega
      have hrep_len : (repeatChunk (p + 1) (mem.take el_s)).length
          = (p + 1) * el_s := by
        rw [repeatChunk_length, htake_len]
      show memcpyAt (broadcastLoop mem el_s (p + 1)) ((p + 1) * el_s)
          ((broadcastLoop mem el_s (p + 1)).take el_s) = _
      rw [hprev]
      have hchunk1 : repeatChunk (p + 1) (mem.take el_s) =
          mem.take el_s ++ repeatChunk p (mem.take el_s) := rfl
      have hfirst : (repeatChunk (p + 1) (mem.take el_s) ++
          mem.drop ((p + 1) * el_s)).take el_s = mem.take el_s := by
        rw [hchunk1, List.append_assoc]
        exact List.take_left' htake_len
      rw [hfirst]
      unfold memcpyAt
      rw [htake_len]
      rw [List.take_left' hrep_len]
      have hdrop : (repeatChunk (p + 1) (mem.take el_s) ++
          mem.drop ((p + 1) * el_s)).drop ((p + 1) * el_s + el_s)
          = mem.drop ((p + 1 + 1) * el_s) := by
        have h1 : (p + 1) * el_s + el_s =
            (repeatChunk (p + 1) (mem.take el_s)).length + el_s := by
          rw [hrep_len]
        rw [h1, List.drop_append, List.drop_drop]
        congr 1
        ring
      rw [hdrop]
      conv_rhs => rw [repeatChunk_succ_right]

theorem chunkAt_repeatChunk (c rest : List Nat) (k n : Nat) (hk : k < n) :
    chunkAt (repeatChunk n c ++ rest) c.length k = c := by
  induction k generalizing n with
  | zero =>
    cases n with
    | zero => omega
    | succ m =>
      unfold chunkAt
      have h1 : repeatChunk (m + 1) c = c ++ repeatChunk m c := rfl
      rw [h1]
      simp only [Nat.zero_mul, List.drop_zero]
      rw [List.append_assoc]
      exact List.take_left c _
  | succ j ih =>
    cases n with
    | zero => omega
    | succ m =>
      unfold chunkAt
      have h1 : (j + 1) * c.length = c.length + j * c.length := by ring
      rw [h1]
      have h2 : repeatChunk (m + 1) c = c ++ repeatChunk m c := rfl
      rw [h2, List.append_assoc, List.drop_append]
      exact ih m (by omega)

/-- C5: for every input-tensor upload with the single-value-broadcast flag
set, the receive path asks for exactly one element (element byte width
bytes), and after the upload every element slot of the tensor buffer holds
the one received value. -/
theorem claim_C5_single_value_broadcast (b : LLBuffer)
    (init received : List Nat) (k : Nat)
    (hel : 0 < getLlElementSize b)
    (hrecv : received.length = getLlElementSize b)
    (hinit : init.length = getLlBufferSize b)
    (hk : k < getLlBufferSize b / getLlElementSize b) :
    receiveDataSize b true = getLlElementSize b ∧
    chunkAt (receiveTensorMemory init received (getLlElementSize b)
        (getLlBufferSize b) true) (getLlElementSize b) k = received := by
  refine ⟨rfl, ?_⟩
  set el := getLlElementSize b with hel_def
  set bs := getLlBufferSize b with hbs_def
  have hne : 1 ≤ bs / el := by omega
  have hellebs : el ≤ bs := by
    by_contra hlt
    push_neg at hlt
    rw [Nat.div_eq_of_lt hlt] at hk
    omega
  have hwritten : memcpyAt init 0 received = received ++ init.drop el := by
    unfold memcpyAt
    simp [hrecv]
  have hwlen : (memcpyAt init 0 received).length = bs := by
    rw [hwritten]
    simp [List.length_drop, hinit, hrecv]
    omega
  have hwtake : (memcpyAt init 0 received).take el = received := by
    rw [hwritten]
    exact List.take_left' hrecv
  show chunkAt (broadcastLoop (memcpyAt init 0 received) el (bs / el)) el k
      = received
  rw [broadcastLoop_closed _ _ _ hne (by rw [hwlen]; exact Nat.div_mul_le_self bs el)]
  rw [hwtake, ← hrecv]
  exact chunkAt_repeatChunk received _ k (bs / received.length)
    (by rw [hrecv]; exact hk)

/-- C5 witness: a 584-byte float32 tensor (146 elements of 4 bytes); the
peer provides the 4 bytes 1,2,3,4 and after the upload element 145 (the
last) equals that value. -/
theorem claim_C5_single_value_broadcast_witness :
    receiveDataSize
        { shape := [1, 146], nbits := 32, size_bytes := 584, epoch := 0 } true =
      getLlElementSize
        { shape := [1, 146], nbits := 32, size_bytes := 584, epoch := 0 } ∧
    chunkAt
        (receiveTensorMemory (List.replicate 584 0) [1, 2, 3, 4]
          (getLlElementSize
            { shape := [1, 146], nbits := 32, size_bytes := 584, epoch := 0 })
          (getLlBufferSize
            { shape := [1, 146], nbits := 32, size_bytes := 584, epoch := 0 })
          true)
        (getLlElementSize
          { shape := [1, 146], nbits := 32, size_bytes := 584, epoch := 0 })
        145 = [1, 2, 3, 4] :=
  claim_C5_single_value_broadcast
    { shape := [1, 146], nbits := 32, size_bytes := 584, epoch := 0 }
    (List.replicate 584 0) [1, 2, 3, 4] 145
    (by decide) (by decide) (by rw [List.length_replicate]; rfl) (by decide)

/- =========================================================================
   Host Streaming Protocol, Run command (aiValidation_ATON.c:
   receive_ai_io_tensor, aiPbCmdNNRun)
   ========================================================================= -/

/-- EnumState values used by the Run command. -/
inductive PbState where
  | waiting
  | processing
  | done
  | error
  | idle
deriving DecidableEq, Repr

/-- EnumError values used by the Run command. -/
inductive PbErr where
  | none
  | invalidSize
  | invalidParam
  | generic
deriving DecidableEq, Repr

/-- Observable protocol actions of the Run command handler, in order:
acknowledgment sent to the peer (aiPbMgrSendAck), blocking wait for a peer
acknowledgment (aiPbMgrWaitAck), the accelerator run (npu_run), the
run-level operator descriptor (aiPbMgrSendOperator), and one output tensor
message (send_ai_io_tensor) carrying its state and its LAST / NO_DATA
flags. -/
inductive PbEv where
  | sendAck (state : PbState) (param : Nat) (err : PbErr)
  | waitAck
  | runModel
  | sendOperator (node_type node_id : Nat)
  | sendTensor (state : PbState) (last no_data : Bool)
deriving DecidableEq, Repr

/-- Placeholder descriptor for the head of an empty buffer table (the C
code indexes in_bufs[0] unconditionally). -/
def dfltBuf : LLBuffer := { shape := [], nbits := 0, size_bytes := 0, epoch := 0 }

/-- The npu_model_info fields consumed by the Run command: the non-param
input and output descriptor tables (in_bufs / n_inputs, out_bufs /
n_outputs, with the counts being the list lengths). -/
structure NpuModelInfo where
  in_bufs : List LLBuffer
  out_bufs : List LLBuffer
deriving DecidableEq, Repr

/-- receive_ai_io_tensor (aiValidation_ATON.c lines 410-454), protocol
view.  data.size is the declared buffer size, or one element width under
the single-value flag; nb_read is what the peer actually delivered.  A
mismatch sends an error ack carrying nb_read with E_INVALID_SIZE and
reports failure; otherwise an ack carrying data.size is sent with the
caller's state, and for state S_WAITING or S_PROCESSING the handler then
blocks in aiPbMgrWaitAck. -/
def receiveAiIoTensor (state : PbState) (b : LLBuffer) (simple : Bool)
    (nb_read : Nat) : Bool × List PbEv :=
  let size := receiveDataSize b simple
  if nb_read ≠ size then
    (false, [PbEv.sendAck PbState.error nb_read PbErr.invalidSize])
  else
    (true,
      [PbEv.sendAck state size PbErr.none] ++
        (if state = PbState.waiting ∨ state = PbState.processing
         then [PbEv.waitAck] else []))

/-- Step 2 of aiPbCmdNNRun (lines 1172-1181): receive each input tensor in
order; the state is S_PROCESSING for the last input and S_WAITING
otherwise; a failed receive aborts the loop.  reads lists the byte counts
the peer delivers, consumed one per tensor (0 if exhausted). -/
def receiveAllInputs (bufs : List LLBuffer) (reads : List Nat)
    (simple : Bool) : Bool × List PbEv :=
  match bufs with
  | [] => (true, [])
  | b :: bs =>
    let state := if bs.isEmpty then PbState.processing else PbState.waiting
    let r := receiveAiIoTensor state b simple (reads.headD 0)
    if r.1 then
      let rest := receiveAllInputs bs reads.tail simple
      (rest.1, r.2 ++ rest.2)
    else (false, r.2)

/-- Step 5 of aiPbCmdNNRun (lines 1220-1233): stream every output tensor
with flag TENSOR_FLAG_OUTPUT, adding NO_DATA when the perf run mode was
requested; the last one is sent with state S_DONE and flag LAST. -/
def sendAllOutputs (bufs : List LLBuffer) (perf_mode : Bool) : List PbEv :=
  match bufs with
  | [] => []
  | _ :: bs =>
    let is_last := bs.isEmpty
    let state := if is_last then PbState.done else PbState.processing
    PbEv.sendTensor state is_last perf_mode :: sendAllOutputs bs perf_mode

/-- aiPbCmdNNRun (aiValidation_ATON.c lines 1126-1234) after successful
instance resolution, as an event trace.  Step 1 acknowledges readiness
advertising in_bufs[0]'s byte size; step 2 receives the inputs and a
failure there ends the command; step 3 invokes npu_run — its return value
is NOT captured: the code sets aton_res = 0 at line 1193 and never assigns
npu_run's result to it, so the aton_res != 0 branch sending the E_GENERIC
ack (lines 1199-1203) cannot fire; step 4 sends the run-level operator
descriptor; step 5 streams the outputs. -/
def aiPbCmdNNRunTrace (info : NpuModelInfo) (simple perf_mode : Bool)
    (reads : List Nat) (run_fails : Bool) : List PbEv :=
  let ack0 := [PbEv.sendAck PbState.waiting
    (getLlBufferSize (info.in_bufs.headD dfltBuf)) PbErr.none]
  let rcv := receiveAllInputs info.in_bufs reads simple
  if rcv.1 = false then ack0 ++ rcv.2
  else
    let _npu_run_ret : Int := if run_fails then -1 else 0
    let aton_res : Int := 0
    if aton_res ≠ 0 then
      ack0 ++ rcv.2 ++ [PbEv.runModel] ++
        [PbEv.sendAck PbState.error 0 PbErr.generic]
    else
      ack0 ++ rcv.2 ++ [PbEv.runModel] ++ [PbEv.sendOperator 0 0] ++
        sendAllOutputs info.out_bufs perf_mode

/-- The per-tensor events of an all-successful upload phase: an ack with
the expected size (S_PROCESSING for the last tensor, S_WAITING otherwise)
followed by the blocking wait, for every tensor. -/
def successInputEvents (bufs : List LLBuffer) (simple : Bool) : List PbEv :=
  match bufs with
  | [] => []
  | b :: bs =>
    let state := if bs.isEmpty then PbState.processing else PbState.waiting
    [PbEv.sendAck state (receiveDataSize b simple) PbErr.none, PbEv.waitAck]
      ++ successInputEvents bs simple

theorem receiveAllInputs_success (bufs : List LLBuffer) (simple : Bool) :
    receiveAllInputs bufs (bufs.map (fun b => receiveDataSize b simple)) simple
      = (true, successInputEvents bufs simple) := by
  induction bufs with
  | nil => rfl
  | cons b bs ih =>
    by_cases hbs : bs.isEmpty <;>
      simp [receiveAllInputs, successInputEvents, receiveAiIoTensor, hbs, ih]

/-- The per-tensor events of a successful upload prefix in which no tensor
is the last one (all acks use S_WAITING). -/
def successPrefixEvents (bufs : List LLBuffer) (simple : Bool) : List PbEv :=
  match bufs with
  | [] => []
  | b :: bs =>
    [PbEv.sendAck PbState.waiting (receiveDataSize b simple) PbErr.none,
     PbEv.waitAck] ++ successPrefixEvents bs simple

theorem headD_eq_getD_zero (l : List Nat) : l.headD 0 = l.getD 0 0 := by
  cases l <;> rfl

theorem tail_getD (l : List Nat) (j : Nat) :
    l.tail.getD j 0 = l.getD (j + 1) 0 := by
  cases l <;> rfl

theorem successPrefixEvents_no_run (bufs : List LLBuffer) (simple : Bool) :
    PbEv.runModel ∉ successPrefixEvents bufs simple := by
  induction bufs with
  | nil => simp [successPrefixEvents]
  | cons b bs ih => simp [successPrefixEvents, ih]

theorem successPrefixEvents_no_tensor (bufs : List LLBuffer) (simple : Bool)
    (st : PbState) (l nd : Bool) :
    PbEv.sendTensor st l nd ∉ successPrefixEvents bufs simple := by
  induction bufs with
  | nil => simp [successPrefixEvents]
  | cons b bs ih => simp [successPrefixEvents, ih]

/-- If the first i tensors are delivered with their expected sizes and
tensor i is not, the upload loop stops at tensor i with the error ack
carrying the bytes actually read. -/
theorem receiveAllInputs_fail (bufs : List LLBuffer) (reads : List Nat)
    (simple : Bool) (i : Nat) (hi : i < bufs.length)
    (hmatch : ∀ j, j < i →
      reads.getD j 0 = receiveDataSize (bufs.getD j dfltBuf) simple)
    (hfail : reads.getD i 0 ≠ receiveDataSize (bufs.getD i dfltBuf) simple) :
    receiveAllInputs bufs reads simple =
      (false, successPrefixEvents (bufs.take i) simple ++
        [PbEv.sendAck PbState.error (reads.getD i 0) PbErr.invalidSize]) := by
  induction i generalizing bufs reads with
  | zero =>
    cases bufs with
    | nil => simp at hi
    | cons b bs =>
      cases reads with
      | nil =>
        have hf : (0 : Nat) ≠ receiveDataSize b simple := by simpa using hfail
        simp [receiveAllInputs, receiveAiIoTensor, hf, successPrefixEvents]
      | cons r rs =>
        have hf : r ≠ receiveDataSize b simple := by simpa using hfail
        simp [receiveAllInputs, receiveAiIoTensor, hf, successPrefixEvents]
  | succ j ih =>
    cases bufs with
    | nil => simp at hi
    | cons b bs =>
      have hbs : bs.isEmpty = false := by
        cases bs with
        | nil =>
          have hlen : (b :: ([] : List LLBuffer)).length = 1 := rfl
          omega
        | cons c cs => rfl
      have hij : j < bs.length := by
        have h := hi
        simp only [List.length_cons] at h
        omega
      cases reads with
      | nil =>
        have h0 : receiveDataSize b simple = 0 :=
          (by simpa using hmatch 0 (Nat.succ_pos j) : (0 : Nat) =
            receiveDataSize b simple).symm
        have hrec := ih bs [] hij
          (fun k hk => by simpa using hmatch (k + 1) (by omega))
          (by simpa using hfail)
        simp [receiveAllInputs, receiveAiIoTensor, hbs, h0, hrec,
          successPrefixEvents]
      | cons r rs =>
        have h0 : r = receiveDataSize b simple := by
          simpa using hmatch 0 (Nat.succ_pos j)
        have hrec := ih bs rs hij
          (fun k hk => by simpa using hmatch (k + 1) (by omega))
          (by simpa using hfail)
        simp [receiveAllInputs, receiveAiIoTensor, hbs, h0, hrec,
          successPrefixEvents]

/-- Concrete single-input single-output model matching the repository's
network: one 584-byte float32 input of shape 1 x 146 and one 16-byte
float32 output of shape 1 x 4. -/
def exampleInfo : NpuModelInfo :=
  { in_bufs := [{ shape := [1, 146], nbits := 32, size_bytes := 584, epoch := 0 }],
    out_bufs := [{ shape := [1, 4], nbits := 32, size_bytes := 16, epoch := 5 }] }

/-- C2 counterexample: a Run command with the single-value-broadcast flag
set on the 584-byte input; the peer delivers 4 bytes, which differs from
the declared byte size 584, yet the handler acknowledges success and the
run is invoked: the short-read comparison is against the expected receive
size (one element under broadcast), not the declared byte size. -/
theorem claim_C2_counterexample :
    (4 : Nat) ≠ getLlBufferSize (exampleInfo.in_bufs.headD dfltBuf) ∧
    aiPbCmdNNRunTrace exampleInfo true false [4] false =
      [PbEv.sendAck PbState.waiting 584 PbErr.none,
       PbEv.sendAck PbState.processing 4 PbErr.none, PbEv.waitAck,
       PbEv.runModel, PbEv.sendOperator 0 0,
       PbEv.sendTensor PbState.done true false] ∧
    PbEv.runModel ∈ aiPbCmdNNRunTrace exampleInfo true false [4] false := by
  decide

/-- C2 (amended): for every Run command in which the number of bytes
received for an input tensor differs from that tensor's expected upload
size — its declared byte size, or one element's byte width when the
single-value-broadcast flag is set — the handler sends an acknowledgment
with error InvalidSize carrying the number of bytes actually read,
receives no further input tensors, does not invoke the run step, and
streams no output tensors. -/
theorem claim_C2_amended (info : NpuModelInfo)
    (simple perf_mode run_fails : Bool) (reads : List Nat) (i : Nat)
    (hi : i < info.in_bufs.length)
    (hmatch : ∀ j, j < i →
      reads.getD j 0 = receiveDataSize (info.in_bufs.getD j dfltBuf) simple)
    (hfail : reads.getD i 0 ≠
      receiveDataSize (info.in_bufs.getD i dfltBuf) simple) :
    aiPbCmdNNRunTrace info simple perf_mode reads run_fails =
      [PbEv.sendAck PbState.waiting
          (getLlBufferSize (info.in_bufs.headD dfltBuf)) PbErr.none]
        ++ successPrefixEvents (info.in_bufs.take i) simple
        ++ [PbEv.sendAck PbState.error (reads.getD i 0) PbErr.invalidSize] ∧
    PbEv.runModel ∉ aiPbCmdNNRunTrace info simple perf_mode reads run_fails ∧
    (∀ st l nd, PbEv.sendTensor st l nd ∉
      aiPbCmdNNRunTrace info simple perf_mode reads run_fails) := by
  have hfl := receiveAllInputs_fail info.in_bufs reads simple i hi hmatch hfail
  have htr : aiPbCmdNNRunTrace info simple perf_mode reads run_fails =
      [PbEv.sendAck PbState.waiting
          (getLlBufferSize (info.in_bufs.headD dfltBuf)) PbErr.none]
        ++ successPrefixEvents (info.in_bufs.take i) simple
        ++ [PbEv.sendAck PbState.error (reads.getD i 0) PbErr.invalidSize] := by
    simp [aiPbCmdNNRunTrace, hfl]
  refine ⟨htr, ?_, ?_⟩
  · rw [htr]
    intro hmem
    rcases List.mem_append.mp hmem with h1 | h2
    · rcases List.mem_append.mp h1 with ha | hb
      · simp at ha
      · exact successPrefixEvents_no_run _ _ hb
    · simp at h2
  · intro st l nd
    rw [htr]
    intro hmem
    rcases List.mem_append.mp hmem with h1 | h2
    · rcases List.mem_append.mp h1 with ha | hb
      · simp at ha
      · exact successPrefixEvents_no_tensor _ _ _ _ _ hb
    · simp at h2

/-- C2 witness: the 584-byte input receives only 500 bytes (no broadcast
flag); the command trace is the readiness ack followed by the single
InvalidSize error ack carrying 500. -/
theorem claim_C2_amended_witness :
    aiPbCmdNNRunTrace exampleInfo false false [500] false =
      [PbEv.sendAck PbState.waiting
          (getLlBufferSize (exampleInfo.in_bufs.headD dfltBuf)) PbErr.none]
        ++ successPrefixEvents (exampleInfo.in_bufs.take 0) false
        ++ [PbEv.sendAck PbState.error (([500] : List Nat).getD 0 0)
              PbErr.invalidSize] :=
  (claim_C2_amended exampleInfo false false false [500] 0 (by decide)
    (fun j hj => absurd hj (Nat.not_lt_zero j)) (by decide)).1

/-- C3 counterexample: a Run command with a single input tensor delivered
in full.  Its ack (with state S_PROCESSING, since it is the last tensor)
is immediately followed by the blocking aiPbMgrWaitAck event, before
npu_run: the handler does NOT proceed directly to execution after the last
tensor, because the wait condition accepts both S_WAITING and
S_PROCESSING. -/
theorem claim_C3_counterexample :
    aiPbCmdNNRunTrace exampleInfo false false [584] false =
      [PbEv.sendAck PbState.waiting 584 PbErr.none,
       PbEv.sendAck PbState.processing 584 PbErr.none, PbEv.waitAck,
       PbEv.runModel, PbEv.sendOperator 0 0,
       PbEv.sendTensor PbState.done true false] ∧
    (aiPbCmdNNRunTrace exampleInfo false false [584] false)[1]? =
      some (PbEv.sendAck PbState.processing 584 PbErr.none) ∧
    (aiPbCmdNNRunTrace exampleInfo false false [584] false)[2]? =
      some PbEv.waitAck ∧
    (aiPbCmdNNRunTrace exampleInfo false false [584] false)[3]? =
      some PbEv.runModel := by
  decide

/-- C3 (amended): for every Run command with all input tensors delivered
at their expected sizes, the full trace is the readiness ack followed, for
EVERY input tensor — the last one included — by a success acknowledgment
and a blocking wait for the peer's acknowledgment, and only then the run
step, the run-level operator descriptor, and the output tensors.  The last
tensor differs from the others only in its ack state (S_PROCESSING instead
of S_WAITING), not in the flow-control round-trip. -/
theorem claim_C3_amended (info : NpuModelInfo) (simple perf_mode : Bool)
    (run_fails : Bool) :
    aiPbCmdNNRunTrace info simple perf_mode
        (info.in_bufs.map (fun b => receiveDataSize b simple)) run_fails =
      [PbEv.sendAck PbState.waiting
          (getLlBufferSize (info.in_bufs.headD dfltBuf)) PbErr.none]
        ++ successInputEvents info.in_bufs simple
        ++ [PbEv.runModel] ++ [PbEv.sendOperator 0 0]
        ++ sendAllOutputs info.out_bufs perf_mode := by
  simp [aiPbCmdNNRunTrace, receiveAllInputs_success]

/-- C4: evaluation at the failing input.  When the epoch-block loop ends
with a status other than the terminal Done (run_fails = true, npu_run
returns -1), aiPbCmdNNRun still streams the output tensors and never sends
the E_GENERIC error ack, because npu_run's return value is discarded
(aton_res is set to 0 at line 1193 and never reassigned, so the error
branch at lines 1199-1203 is dead code). -/
theorem claim_C4_failure_not_surfaced :
    aiPbCmdNNRunTrace exampleInfo false false [584] true =
      [PbEv.sendAck PbState.waiting 584 PbErr.none,
       PbEv.sendAck PbState.processing 584 PbErr.none, PbEv.waitAck,
       PbEv.runModel, PbEv.sendOperator 0 0,
       PbEv.sendTensor PbState.done true false] ∧
    PbEv.sendAck PbState.error 0 PbErr.generic ∉
      aiPbCmdNNRunTrace exampleInfo false false [584] true ∧
    PbEv.sendTensor PbState.done true false ∈
      aiPbCmdNNRunTrace exampleInfo false false [584] true := by
  decide
